import Mathlib

/-!
Verification of the Identity Resolution & Capture Throttling Engine of the
Real-Time Person Tracker (src/tracker.py), as a shallow embedding in Lean 4.

Modelling conventions:
- Embeddings are an abstract type `Emb`; the distance metric of the external
  face_recognition collaborator is an abstract parameter `dist : Emb → Emb → ℚ`
  (the engine only compares distances against the threshold).
- Clock readings (`time.time()`, `datetime.now()`) within the processing of a
  single detection are modelled as one rational instant `now` supplied per
  detection; the second-resolution strftime string is an abstract `ts : String`
  supplied per detection.
- Python dicts (`last_update_time`, `person_metadata`) are association lists
  with insert-at-head overwrite semantics and first-match lookup.
- File-system effects are recorded in the state: `folders` is the set of
  identity directories existing on disk, `savedFiles` the list of image write
  events (most recent first; a repeated path is an overwrite), `diskLedger`
  the on-disk content of metadata.json. `_save_metadata` copies the in-memory
  `personMetadata` to `diskLedger`.
- I/O failures that raise are modelled by a `SaveOutcome` oracle per save call:
  `imwriteErr` raises at the `cv2.imwrite` call, `ledgerErr` raises inside the
  `_save_metadata` call that follows the ledger increment. A raise propagates
  as `Except.error`, carrying the in-memory state at the moment of the raise,
  exactly as the Python exception leaves `self` mutated so far.
-/

namespace PersonTracker

/-- Configuration values of `PersonTracker.__init__` consulted by the engine. -/
structure Config where
  updateInterval : ℚ
  similarityThreshold : ℚ
deriving DecidableEq

/-- One record of `person_metadata` / metadata.json: `created`, `total_images`,
`last_seen`. Timestamps are the rational instants at which the corresponding
`datetime.now()` call happened. -/
structure MetaEntry where
  created : ℚ
  totalImages : ℕ
  lastSeen : ℚ
deriving DecidableEq

/-- First-match association-list lookup, the model of Python dict access. -/
def alookup {α : Type} : List (String × α) → String → Option α
  | [], _ => none
  | (k, v) :: rest, key => if k = key then some v else alookup rest key

/-- Model of Python `dict.get(key, v0)`. -/
def lookupD {α : Type} (d : List (String × α)) (key : String) (v0 : α) : α :=
  (alookup d key).getD v0

/-- Mutable state of a `PersonTracker` instance together with the relevant
file-system state (see the module docstring). -/
structure St (Emb : Type) where
  databasePath : String
  knownFaces : List Emb
  knownNames : List String
  personCount : ℕ
  lastUpdateTime : List (String × ℚ)
  personMetadata : List (String × MetaEntry)
  folders : List String
  savedFiles : List String
  diskLedger : List (String × MetaEntry)
deriving DecidableEq

/-- State right after the field initialisations of `__init__` (lines 45-56),
before `_load_existing_database` runs. -/
def initState (Emb : Type) (dbPath : String) : St Emb :=
  { databasePath := dbPath
    knownFaces := []
    knownNames := []
    personCount := 0
    lastUpdateTime := []
    personMetadata := []
    folders := []
    savedFiles := []
    diskLedger := [] }

/-- Identity folder / label name: `f"Person_{n}"`. -/
def personName (n : ℕ) : String := "Person_" ++ toString n

/-- Character-list prefix test, the model of `str.startswith`. -/
def charPrefix : List Char → List Char → Bool
  | _, [] => true
  | [], _ :: _ => false
  | c :: cs, p :: ps => if c = p then charPrefix cs ps else false

/-- Model of `name.startswith(pre)`. -/
def strStartsWith (name pre : String) : Bool :=
  charPrefix name.data pre.data

/-- Model of `str.split('_')`: split a character list at every underscore. -/
def splitOnUnderscore : List Char → List (List Char)
  | [] => [[]]
  | c :: cs =>
    let r := splitOnUnderscore cs
    if c = '_' then [] :: r
    else
      match r with
      | [] => [[c]]
      | g :: gs => (c :: g) :: gs

/-- Value of one decimal digit character, `none` for a non-digit. -/
def decDigit (c : Char) : Option ℕ :=
  if '0' ≤ c ∧ c ≤ '9' then some (c.toNat - '0'.toNat) else none

/-- Model of Python `int` on a non-negative decimal literal: `none` (a raise)
on the empty string or any non-digit character. -/
def parseNat (cs : List Char) : Option ℕ :=
  match cs with
  | [] => none
  | _ :: _ =>
    cs.foldl
      (fun acc c =>
        match acc, decDigit c with
        | some a, some d => some (10 * a + d)
        | _, _ => none)
      (some 0)

/-- Model of `int(person_id.split('_')[1])`: `some n` when the parse succeeds,
`none` when `int` raises. -/
def parseId (name : String) : Option ℕ :=
  parseNat ((splitOnUnderscore name.data).getD 1 [])

/-- Model of `np.min` on the list of distances (0 for the empty list, which the
code never reaches because of the emptiness guard). -/
def listMinD : List ℚ → ℚ
  | [] => 0
  | x :: xs => xs.foldl min x

/-- Model of `np.argmin`: index of the first occurrence of the minimum. -/
def idxOfMin (l : List ℚ) : ℕ :=
  l.findIdx (fun d => decide (d ≤ listMinD l))

/-- Shallow embedding of `PersonTracker._identify_person` (lines 212-225):
`None` on an empty gallery; otherwise the name at the argmin of the distances
when the minimum distance is strictly below the threshold, else `None`. -/
def identifyPerson {Emb : Type} (cfg : Config) (dist : Emb → Emb → ℚ)
    (faces : List Emb) (names : List String) (e : Emb) : Option String :=
  if faces.isEmpty then none
  else
    let distances := faces.map (fun f => dist f e)
    let minDistance := listMinD distances
    if minDistance < cfg.similarityThreshold then
      some (names.getD (idxOfMin distances) "")
    else none

/-- Shallow embedding of `PersonTracker._register_new_person` (lines 227-238):
increments `person_count`, appends the embedding and the new name to the
parallel gallery lists, and stamps `last_update_time[pid] = time.time()`. -/
def registerNewPerson {Emb : Type} (now : ℚ) (s : St Emb) (e : Emb) :
    String × St Emb :=
  let newCount := s.personCount + 1
  let pid := personName newCount
  (pid,
    { s with
      personCount := newCount
      knownFaces := s.knownFaces ++ [e]
      knownNames := s.knownNames ++ [pid]
      lastUpdateTime := (pid, now) :: s.lastUpdateTime })

/-- Shallow embedding of `PersonTracker._should_update_person` (lines 240-245):
`(current_time - last_update_time.get(pid, 0)) >= update_interval`. -/
def shouldUpdatePerson {Emb : Type} (cfg : Config) (now : ℚ) (s : St Emb)
    (pid : String) : Bool :=
  decide (cfg.updateInterval ≤ now - lookupD s.lastUpdateTime pid 0)

/-- Outcome oracle for one `_save_person_image` call: success, an exception
raised by `cv2.imwrite`, or an exception raised by the `_save_metadata` call
that follows the ledger increment. -/
inductive SaveOutcome
  | ok
  | imwriteErr
  | ledgerErr
deriving DecidableEq

/-- Shallow embedding of `PersonTracker._save_metadata` (lines 129-133):
rewrites metadata.json in full from the in-memory dict. -/
def saveMetadata {Emb : Type} (s : St Emb) : St Emb :=
  { s with diskLedger := s.personMetadata }

/-- Shallow embedding of `PersonTracker._create_person_folder` (lines 135-148):
creates the directory, initialises the metadata record with
`created = last_seen = now` and `total_images = 0`, and saves the ledger. -/
def createPersonFolder {Emb : Type} (now : ℚ) (s : St Emb) (pid : String) :
    St Emb :=
  saveMetadata
    { s with
      folders := pid :: s.folders
      personMetadata :=
        (pid, { created := now, totalImages := 0, lastSeen := now })
          :: s.personMetadata }

/-- Membership test on the directory list, the model of `os.path.exists` on an
identity folder path. -/
def containsStr : List String → String → Bool
  | [], _ => false
  | x :: xs, y => if x = y then true else containsStr xs y

/-- Image filename of `_save_person_image` line 168:
`f"{person_id}_{timestamp}.jpg"` with a second-resolution timestamp. -/
def imageFilename (pid ts : String) : String :=
  pid ++ "_" ++ ts ++ ".jpg"

/-- Full image path of `_save_person_image` line 176. -/
def imagePath (dbPath pid ts : String) : String :=
  dbPath ++ "/" ++ pid ++ "/" ++ imageFilename pid ts

/-- Shallow embedding of `PersonTracker._save_person_image` (lines 150-186),
face-region cropping elided (external collaborator): create the folder if
absent, write the image, and when the identity has a metadata record,
increment `total_images`, set `last_seen = now` and save the ledger. A raise
(per the `SaveOutcome` oracle) propagates with the state mutated so far. -/
def savePersonImage {Emb : Type} (now : ℚ) (ts : String) (out : SaveOutcome)
    (s : St Emb) (pid : String) : Except (St Emb) (St Emb × String) :=
  let s1 := if containsStr s.folders pid then s else createPersonFolder now s pid
  let path := imagePath s1.databasePath pid ts
  match out with
  | .imwriteErr => .error s1
  | _ =>
    let s2 := { s1 with savedFiles := path :: s1.savedFiles }
    match alookup s2.personMetadata pid with
    | none => .ok (s2, path)
    | some m =>
      let s3 :=
        { s2 with
          personMetadata :=
            (pid, { m with totalImages := m.totalImages + 1, lastSeen := now })
              :: s2.personMetadata }
      match out with
      | .ledgerErr => .error s3
      | _ => .ok (saveMetadata s3, path)

/-- One identity directory as `_load_existing_database` sees it: its name,
whether it contains at least one image file, whether loading the reference
image and extracting encodings raises, and the encodings found. -/
structure DiskFolder (Emb : Type) where
  name : String
  hasImage : Bool
  loadOk : Bool
  encodings : List Emb
deriving DecidableEq

/-- Processing of one directory inside the loop of
`PersonTracker._load_existing_database` (lines 101-127): only `Person_*`
directories are considered; a directory with no image, a raising load, or no
extractable encoding contributes nothing; otherwise the gallery lists are
extended, `last_update_time` is set to 0, and — when `int` parses the numeric
suffix — `person_count = max(person_count, n)`. As in the source, the gallery
appends precede the `int` parse, so they persist even when the parse raises. -/
def loadFolder {Emb : Type} (s : St Emb) (f : DiskFolder Emb) : St Emb :=
  if strStartsWith f.name "Person_" then
    if f.hasImage then
      if f.loadOk then
        match f.encodings with
        | [] => s
        | enc :: _ =>
          let s1 :=
            { s with
              knownFaces := s.knownFaces ++ [enc]
              knownNames := s.knownNames ++ [f.name]
              lastUpdateTime := (f.name, 0) :: s.lastUpdateTime }
          match parseId f.name with
          | some n => { s1 with personCount := max s1.personCount n }
          | none => s1
      else s
    else s
  else s

/-- Shallow embedding of `PersonTracker._load_existing_database` (lines
88-127): the metadata file (if present) is loaded into `person_metadata`, then
every directory is processed in listing order. -/
def loadExistingDatabase (Emb : Type) (dbPath : String)
    (meta : List (String × MetaEntry)) (folders : List (DiskFolder Emb)) :
    St Emb :=
  folders.foldl loadFolder
    { initState Emb dbPath with personMetadata := meta, diskLedger := meta }

/-- The id contributed to `person_count` by one directory during load: `some n`
exactly when the directory passes every guard of `loadFolder` and its name
parses as `Person_<n>`. -/
def loadedId {Emb : Type} (f : DiskFolder Emb) : Option ℕ :=
  if strStartsWith f.name "Person_" then
    if f.hasImage then
      if f.loadOk then
        match f.encodings with
        | [] => none
        | _ :: _ => parseId f.name
      else none
    else none
  else none

/-- One detection event handed to the loop body: the face embedding, the clock
instant, the strftime timestamp string, and the I/O outcome of a save attempt
during this detection. -/
structure Obs (Emb : Type) where
  emb : Emb
  now : ℚ
  ts : String
  out : SaveOutcome

/-- Per-detection body of `start_tracking` (lines 280-295): identify; if
unknown, register and save the first image immediately; if known, save only
when the throttle check passes, then restamp `last_update_time`. An exception
raised while saving propagates (there is no per-detection handler). -/
def processDetection {Emb : Type} (cfg : Config) (dist : Emb → Emb → ℚ)
    (now : ℚ) (ts : String) (out : SaveOutcome) (s : St Emb) (e : Emb) :
    Except (St Emb) (St Emb × String) :=
  match identifyPerson cfg dist s.knownFaces s.knownNames e with
  | none =>
    let r := registerNewPerson now s e
    match savePersonImage now ts out r.2 r.1 with
    | .error s1 => .error s1
    | .ok (s1, _) => .ok (s1, r.1)
  | some pid =>
    if shouldUpdatePerson cfg now s pid then
      match savePersonImage now ts out s pid with
      | .error s1 => .error s1
      | .ok (s1, _) =>
        .ok ({ s1 with lastUpdateTime := (pid, now) :: s1.lastUpdateTime }, pid)
    else .ok (s, pid)

/-- The per-frame `for` loop of `start_tracking` (lines 280-295): detections
are processed in order; an exception raised by any of them aborts the rest of
the frame and propagates. -/
def processFrame {Emb : Type} (cfg : Config) (dist : Emb → Emb → ℚ) :
    List (Obs Emb) → St Emb → Except (St Emb) (St Emb)
  | [], s => .ok s
  | o :: os, s =>
    match processDetection cfg dist o.now o.ts o.out s o.emb with
    | .error s1 => .error s1
    | .ok (s1, _) => processFrame cfg dist os s1

/-- The `while True` loop of `start_tracking` (lines 268-313): frames are
processed until the list is exhausted (camera stop / quit key) or an exception
escapes a frame, in which case the `except` clause at lines 317-318 logs it
and falls through — remaining frames are never processed. -/
def runFrames {Emb : Type} (cfg : Config) (dist : Emb → Emb → ℚ) :
    List (List (Obs Emb)) → St Emb → St Emb
  | [], s => s
  | frame :: rest, s =>
    match processFrame cfg dist frame s with
    | .error s1 => s1
    | .ok s1 => runFrames cfg dist rest s1

/-- Shallow embedding of `PersonTracker.cleanup` (lines 322-334): the final
`_save_metadata` flush (camera/window teardown elided). -/
def cleanup {Emb : Type} (s : St Emb) : St Emb :=
  saveMetadata s

/-- Shallow embedding of `PersonTracker.start_tracking` (lines 263-320): run
the loop; the `finally` clause guarantees `cleanup` on every exit path. -/
def startTracking {Emb : Type} (cfg : Config) (dist : Emb → Emb → ℚ)
    (frames : List (List (Obs Emb))) (s : St Emb) : St Emb :=
  cleanup (runFrames cfg dist frames s)

/-- State carried by either branch of an `Except` result of the loop body. -/
def postState {Emb : Type} : Except (St Emb) (St Emb × String) → St Emb
  | .error s => s
  | .ok (s, _) => s

/-- Path returned by a successful save, `none` when the save raised. -/
def okPath {Emb : Type} : Except (St Emb) (St Emb × String) → Option String
  | .error _ => none
  | .ok (_, p) => some p

/-- Harness: a sequence of `_register_new_person` calls, returning the ids in
assignment order together with the final state. -/
def registerSeq {Emb : Type} (now : ℚ) (s : St Emb) :
    List Emb → List String × St Emb
  | [] => ([], s)
  | e :: es =>
    let r := registerNewPerson now s e
    let rest := registerSeq now r.2 es
    (r.1 :: rest.1, rest.2)

/-- Concrete embedding space used for witnesses: rationals with the absolute
difference as the external metric. -/
def qdist (a b : ℚ) : ℚ := if a ≤ b then b - a else a - b

/-- Default configuration of `main` (update interval 300 s, threshold 0.6). -/
def defaultConfig : Config :=
  { updateInterval := 300, similarityThreshold := 3 / 5 }

/-- Witness state: one known identity whose last image was persisted at time 0. -/
def throttleSt : St ℚ :=
  { initState ℚ "./database" with
    knownFaces := [0]
    knownNames := ["Person_1"]
    personCount := 1
    lastUpdateTime := [("Person_1", 0)] }

/-! ### Helper lemmas -/

theorem savePersonImage_gallery_frame {Emb : Type} (now : ℚ) (ts : String)
    (out : SaveOutcome) (s : St Emb) (pid : String) :
    (postState (savePersonImage now ts out s pid)).knownFaces = s.knownFaces ∧
    (postState (savePersonImage now ts out s pid)).knownNames = s.knownNames ∧
    (postState (savePersonImage now ts out s pid)).personCount = s.personCount ∧
    (postState (savePersonImage now ts out s pid)).lastUpdateTime =
      s.lastUpdateTime := by
  unfold savePersonImage
  by_cases hc : containsStr s.folders pid = true <;> cases out <;>
    simp only [hc, if_true, if_false, Bool.false_eq_true]
  all_goals repeat' split
  all_goals simp [postState, createPersonFolder, saveMetadata]

theorem registerNewPerson_fields {Emb : Type} (now : ℚ) (s : St Emb) (e : Emb) :
    (registerNewPerson now s e).1 = personName (s.personCount + 1) ∧
    (registerNewPerson now s e).2.knownFaces = s.knownFaces ++ [e] ∧
    (registerNewPerson now s e).2.knownNames =
      s.knownNames ++ [personName (s.personCount + 1)] ∧
    (registerNewPerson now s e).2.personCount = s.personCount + 1 := by
  simp [registerNewPerson]

theorem processDetection_unknown_post {Emb : Type} (cfg : Config)
    (dist : Emb → Emb → ℚ) (now : ℚ) (ts : String) (out : SaveOutcome)
    (s : St Emb) (e : Emb)
    (h : identifyPerson cfg dist s.knownFaces s.knownNames e = none) :
    postState (processDetection cfg dist now ts out s e) =
      postState (savePersonImage now ts out (registerNewPerson now s e).2
        (registerNewPerson now s e).1) := by
  simp only [processDetection, h]
  rcases hr : savePersonImage now ts out (registerNewPerson now s e).2
      (registerNewPerson now s e).1 with s1 | ⟨s1, p⟩ <;>
    simp [hr, postState]

theorem savePersonImage_ok_savedFiles {Emb : Type} (now : ℚ) (ts : String)
    (s : St Emb) (pid : String) :
    (postState (savePersonImage now ts SaveOutcome.ok s pid)).savedFiles =
      imagePath s.databasePath pid ts :: s.savedFiles := by
  unfold savePersonImage
  by_cases hc : containsStr s.folders pid = true <;>
    simp only [hc, if_true, if_false, Bool.false_eq_true]
  all_goals repeat' split
  all_goals simp [postState, createPersonFolder, saveMetadata]

theorem processDetection_knownFaces_cases {Emb : Type} (cfg : Config)
    (dist : Emb → Emb → ℚ) (now : ℚ) (ts : String) (out : SaveOutcome)
    (s : St Emb) (e : Emb) :
    (postState (processDetection cfg dist now ts out s e)).knownFaces =
        s.knownFaces ∨
    (postState (processDetection cfg dist now ts out s e)).knownFaces =
        s.knownFaces ++ [e] := by
  rcases hid : identifyPerson cfg dist s.knownFaces s.knownNames e with _ | pid
  · right
    rw [processDetection_unknown_post cfg dist now ts out s e hid]
    rw [(savePersonImage_gallery_frame now ts out (registerNewPerson now s e).2
      (registerNewPerson now s e).1).1]
    exact (registerNewPerson_fields now s e).2.1
  · left
    simp only [processDetection, hid]
    by_cases hsu : shouldUpdatePerson cfg now s pid = true
    · simp only [hsu, if_true]
      have hf := (savePersonImage_gallery_frame now ts out s pid).1
      rcases hr : savePersonImage now ts out s pid with s1 | ⟨s1, p⟩ <;>
        rw [hr] at hf <;> simpa [postState] using hf
    · simp [hsu, postState]

theorem loadFolder_lastUpdateTime {Emb : Type} (s : St Emb)
    (f : DiskFolder Emb) :
    (loadFolder s f).lastUpdateTime = s.lastUpdateTime ∨
    (loadFolder s f).lastUpdateTime = (f.name, 0) :: s.lastUpdateTime := by
  unfold loadFolder
  repeat' split
  all_goals simp

theorem foldl_load_zero {Emb : Type} (folders : List (DiskFolder Emb)) :
    ∀ s : St Emb, (∀ p ∈ s.lastUpdateTime, p.2 = 0) →
      ∀ p ∈ (folders.foldl loadFolder s).lastUpdateTime, p.2 = 0 := by
  induction folders with
  | nil => intro s h; exact h
  | cons f fs ih =>
    intro s h
    simp only [List.foldl_cons]
    refine ih (loadFolder s f) ?_
    rcases loadFolder_lastUpdateTime s f with heq | heq <;> rw [heq]
    · exact h
    · intro p hp
      rcases List.mem_cons.mp hp with rfl | hp
      · rfl
      · exact h p hp

theorem lookupD_all_zero (d : List (String × ℚ)) (key : String)
    (h : ∀ p ∈ d, p.2 = 0) : lookupD d key 0 = 0 := by
  induction d with
  | nil => rfl
  | cons p rest ih =>
    obtain ⟨k, v⟩ := p
    by_cases hk : k = key
    · have hv : v = 0 := h (k, v) (by simp)
      simp [lookupD, alookup, hk, hv]
    · have hrest := ih (fun q hq => h q (by simp [hq]))
      simpa [lookupD, alookup, hk] using hrest

theorem loadFolder_personCount {Emb : Type} (s : St Emb) (f : DiskFolder Emb) :
    (loadFolder s f).personCount =
      (match loadedId f with
        | some n => max s.personCount n
        | none => s.personCount) := by
  unfold loadFolder loadedId
  repeat' split
  all_goals simp_all

theorem foldl_load_personCount {Emb : Type} (folders : List (DiskFolder Emb)) :
    ∀ s : St Emb,
      (folders.foldl loadFolder s).personCount =
        folders.foldl
          (fun a f =>
            match loadedId f with
            | some n => max a n
            | none => a) s.personCount := by
  induction folders with
  | nil => intro s; rfl
  | cons f fs ih =>
    intro s
    simp only [List.foldl_cons]
    rw [ih (loadFolder s f), loadFolder_personCount]

theorem registerSeq_ids {Emb : Type} (now : ℚ) (es : List Emb) :
    ∀ s : St Emb,
      (registerSeq now s es).1 =
        (List.range es.length).map (fun i => personName (s.personCount + 1 + i)) ∧
      (registerSeq now s es).2.personCount = s.personCount + es.length := by
  induction es with
  | nil => intro s; simp [registerSeq]
  | cons e es ih =>
    intro s
    have h2 : (registerNewPerson now s e).2.personCount = s.personCount + 1 :=
      (registerNewPerson_fields now s e).2.2.2
    simp only [registerSeq]
    constructor
    · rw [(ih _).1, h2, (registerNewPerson_fields now s e).1]
      rw [List.length_cons, List.range_succ_eq_map, List.map_cons, List.map_map]
      refine congrArg₂ _ rfl ?_
      refine List.map_congr_left ?_
      intro a ha
      simp only [Function.comp_apply]
      congr 1
      omega
    · rw [(ih _).2, h2]
      rw [List.length_cons]
      omega

/-! ### Claims -/

/-- C2: for every non-empty gallery and every query embedding, identification
matches an existing identity exactly when the minimum distance to a stored
reference embedding is strictly below `similarity_threshold`; at a distance
equal to the threshold no match is produced, below it a match is produced. -/
theorem C2_threshold_strict {Emb : Type} (cfg : Config) (dist : Emb → Emb → ℚ)
    (faces : List Emb) (names : List String) (e : Emb) (h : faces ≠ []) :
    (identifyPerson cfg dist faces names e).isSome = true ↔
      listMinD (faces.map fun f => dist f e) < cfg.similarityThreshold := by
  match faces with
  | [] => exact absurd rfl h
  | f :: fs =>
    simp only [identifyPerson, List.isEmpty_cons, Bool.false_eq_true, if_false]
    split <;> simp_all

/-- Witness for C2 at a concrete gallery and query. -/
theorem C2_threshold_strict_witness :
    (identifyPerson defaultConfig qdist [(0 : ℚ)] ["Person_1"] (1 / 2)).isSome
        = true ↔
      listMinD ([(0 : ℚ)].map fun f => qdist f (1 / 2)) <
        defaultConfig.similarityThreshold :=
  C2_threshold_strict defaultConfig qdist [0] ["Person_1"] (1 / 2) (by decide)

/-- C5: the capture decision for an already-known identity is true exactly when
`now - last_update_time >= update_interval`; with the default 300-second
interval, an observation 299 seconds after the last persisted image yields
false and one 301 seconds after yields true. -/
theorem C5_throttle_boundary :
    (∀ (Emb : Type) (cfg : Config) (now : ℚ) (s : St Emb) (pid : String),
        shouldUpdatePerson cfg now s pid = true ↔
          cfg.updateInterval ≤ now - lookupD s.lastUpdateTime pid 0) ∧
    shouldUpdatePerson defaultConfig 299 throttleSt "Person_1" = false ∧
    shouldUpdatePerson defaultConfig 301 throttleSt "Person_1" = true := by
  refine ⟨fun Emb cfg now s pid => ?_, ?_, ?_⟩
  · simp [shouldUpdatePerson]
  · simp only [shouldUpdatePerson, throttleSt, defaultConfig, lookupD, alookup,
      initState, decide_eq_false_iff_not]
    norm_num
  · simp only [shouldUpdatePerson, throttleSt, defaultConfig, lookupD, alookup,
      initState, decide_eq_true_eq]
    norm_num

/-- C8: nearest-neighbor lookup on an empty gallery returns no match rather
than an error, and resolution on an empty gallery always registers a new
identity (for every save outcome, the new name enters the gallery). -/
theorem C8_empty_gallery :
    (∀ (Emb : Type) (cfg : Config) (dist : Emb → Emb → ℚ)
        (names : List String) (e : Emb),
        identifyPerson cfg dist [] names e = none) ∧
    (∀ (Emb : Type) (cfg : Config) (dist : Emb → Emb → ℚ) (now : ℚ)
        (ts : String) (out : SaveOutcome) (s : St Emb) (e : Emb),
        s.knownFaces = [] →
        (postState (processDetection cfg dist now ts out s e)).knownNames =
          s.knownNames ++ [personName (s.personCount + 1)]) := by
  constructor
  · intro Emb cfg dist names e
    rfl
  · intro Emb cfg dist now ts out s e h
    have hid : identifyPerson cfg dist s.knownFaces s.knownNames e = none := by
      rw [h]; rfl
    rw [processDetection_unknown_post cfg dist now ts out s e hid]
    rw [(savePersonImage_gallery_frame now ts out (registerNewPerson now s e).2
      (registerNewPerson now s e).1).2.1]
    exact (registerNewPerson_fields now s e).2.2.1

/-- Witness for C8's second conjunct at the initial (empty) state. -/
theorem C8_empty_gallery_witness :
    (postState (processDetection defaultConfig qdist 7 "20260101_120000"
        SaveOutcome.ok (initState ℚ "./database") 0)).knownNames =
      (initState ℚ "./database").knownNames ++
        [personName ((initState ℚ "./database").personCount + 1)] :=
  C8_empty_gallery.2 ℚ defaultConfig qdist 7 "20260101_120000" SaveOutcome.ok
    (initState ℚ "./database") 0 rfl

/-- C6: when identification returns no match, the detection is registered and
its first image is persisted immediately and unconditionally on that same
cycle, for every configuration — the throttle check is bypassed. -/
theorem C6_new_identity_immediate :
    ∀ (Emb : Type) (cfg : Config) (dist : Emb → Emb → ℚ) (now : ℚ)
      (ts : String) (s : St Emb) (e : Emb),
      identifyPerson cfg dist s.knownFaces s.knownNames e = none →
      (postState (processDetection cfg dist now ts SaveOutcome.ok s e)).savedFiles =
        imagePath s.databasePath (personName (s.personCount + 1)) ts ::
          s.savedFiles := by
  intro Emb cfg dist now ts s e hid
  rw [processDetection_unknown_post cfg dist now ts SaveOutcome.ok s e hid]
  rw [savePersonImage_ok_savedFiles]
  simp [registerNewPerson]

/-- Witness for C6 at the initial state with an arbitrary configuration. -/
theorem C6_new_identity_immediate_witness :
    (postState (processDetection defaultConfig qdist 7 "ts0" SaveOutcome.ok
        (initState ℚ "./database") 0)).savedFiles =
      imagePath (initState ℚ "./database").databasePath
        (personName ((initState ℚ "./database").personCount + 1)) "ts0" ::
        (initState ℚ "./database").savedFiles :=
  C6_new_identity_immediate ℚ defaultConfig qdist 7 "ts0"
    (initState ℚ "./database") 0 rfl

/-- C9: a stored reference embedding is written exactly once — registration
appends it, and image persistence (including folder creation and ledger
updates), identification and throttling never modify the existing gallery:
after any per-detection cycle the previously stored embeddings are an
unchanged prefix of the new gallery list. -/
theorem C9_reference_embeddings_frozen :
    ∀ (Emb : Type) (cfg : Config) (dist : Emb → Emb → ℚ) (now : ℚ)
      (ts : String) (out : SaveOutcome) (s : St Emb) (e : Emb) (pid : String),
      (postState (savePersonImage now ts out s pid)).knownFaces = s.knownFaces ∧
      (registerNewPerson now s e).2.knownFaces = s.knownFaces ++ [e] ∧
      (postState (processDetection cfg dist now ts out s e)).knownFaces.take
        s.knownFaces.length = s.knownFaces := by
  intro Emb cfg dist now ts out s e pid
  refine ⟨(savePersonImage_gallery_frame now ts out s pid).1,
    (registerNewPerson_fields now s e).2.1, ?_⟩
  rcases processDetection_knownFaces_cases cfg dist now ts out s e with h | h <;>
    rw [h]
  · exact List.take_length _
  · exact List.take_left _ _

/-- C7: the first image persistence for an identity (no folder, no ledger
record yet) creates its ledger record with `created = last_seen = now` and
`image_count = 1`; every subsequent persistence (folder and record present,
as after a restart with an intact metadata.json) increments `image_count` and
sets `last_seen = now`; in both cases metadata.json is rewritten in full from
the in-memory ledger. -/
theorem C7_ledger_upsert :
    (∀ (Emb : Type) (now : ℚ) (ts : String) (s : St Emb) (pid : String),
        containsStr s.folders pid = false →
        alookup s.personMetadata pid = none →
        alookup (postState
              (savePersonImage now ts SaveOutcome.ok s pid)).personMetadata pid =
            some { created := now, totalImages := 1, lastSeen := now } ∧
          (postState (savePersonImage now ts SaveOutcome.ok s pid)).diskLedger =
            (postState (savePersonImage now ts SaveOutcome.ok s pid)).personMetadata) ∧
    (∀ (Emb : Type) (now : ℚ) (ts : String) (s : St Emb) (pid : String)
        (m : MetaEntry),
        containsStr s.folders pid = true →
        alookup s.personMetadata pid = some m →
        alookup (postState
              (savePersonImage now ts SaveOutcome.ok s pid)).personMetadata pid =
            some { created := m.created, totalImages := m.totalImages + 1,
                   lastSeen := now } ∧
          (postState (savePersonImage now ts SaveOutcome.ok s pid)).diskLedger =
            (postState (savePersonImage now ts SaveOutcome.ok s pid)).personMetadata) := by
  constructor
  · intro Emb now ts s pid hc halk
    simp only [savePersonImage, hc, Bool.false_eq_true, if_false]
    simp [createPersonFolder, saveMetadata, alookup, postState]
  · intro Emb now ts s pid m hc halk
    simp only [savePersonImage, hc, if_true]
    simp [halk, alookup, postState, saveMetadata]

/-- Witness state for the subsequent-persistence half of C7: identity folder
and ledger record already exist (one image, created at time 5). -/
def c7St : St ℚ :=
  { initState ℚ "./database" with
    folders := ["Person_1"]
    personMetadata := [("Person_1", { created := 5, totalImages := 1, lastSeen := 5 })] }

/-- Witness for C7: a first persistence at the initial state and a subsequent
persistence at `c7St`. -/
theorem C7_ledger_upsert_witness :
    (alookup (postState (savePersonImage 5 "t1" SaveOutcome.ok
          (initState ℚ "./database") "Person_1")).personMetadata "Person_1" =
        some { created := 5, totalImages := 1, lastSeen := 5 } ∧
      (postState (savePersonImage 5 "t1" SaveOutcome.ok
          (initState ℚ "./database") "Person_1")).diskLedger =
        (postState (savePersonImage 5 "t1" SaveOutcome.ok
          (initState ℚ "./database") "Person_1")).personMetadata) ∧
    (alookup (postState (savePersonImage 9 "t2" SaveOutcome.ok
          c7St "Person_1")).personMetadata "Person_1" =
        some { created := 5, totalImages := 1 + 1, lastSeen := 9 } ∧
      (postState (savePersonImage 9 "t2" SaveOutcome.ok
          c7St "Person_1")).diskLedger =
        (postState (savePersonImage 9 "t2" SaveOutcome.ok
          c7St "Person_1")).personMetadata) :=
  ⟨C7_ledger_upsert.1 ℚ 5 "t1" (initState ℚ "./database") "Person_1" rfl rfl,
    C7_ledger_upsert.2 ℚ 9 "t2" c7St "Person_1"
      { created := 5, totalImages := 1, lastSeen := 5 } (by decide) (by decide)⟩

/-- C10: every identity reconstructed from disk at startup has
`last_update_time` initialised to 0, regardless of any timestamp persisted in
metadata.json; consequently, for any clock value at least `update_interval`,
the throttle check passes on the first re-sighting after a restart. -/
theorem C10_restart_resets_throttle :
    (∀ (Emb : Type) (dbPath : String) (meta : List (String × MetaEntry))
        (folders : List (DiskFolder Emb)) (pid : String),
        lookupD (loadExistingDatabase Emb dbPath meta folders).lastUpdateTime
          pid 0 = 0) ∧
    (∀ (Emb : Type) (dbPath : String) (meta : List (String × MetaEntry))
        (folders : List (DiskFolder Emb)) (cfg : Config) (now : ℚ)
        (pid : String),
        cfg.updateInterval ≤ now →
        shouldUpdatePerson cfg now (loadExistingDatabase Emb dbPath meta folders)
          pid = true) := by
  have hz : ∀ (Emb : Type) (dbPath : String) (meta : List (String × MetaEntry))
      (folders : List (DiskFolder Emb)) (pid : String),
      lookupD (loadExistingDatabase Emb dbPath meta folders).lastUpdateTime
        pid 0 = 0 := by
    intro Emb dbPath meta folders pid
    unfold loadExistingDatabase
    refine lookupD_all_zero _ _ (foldl_load_zero folders _ ?_)
    intro p hp
    simp [initState] at hp
  refine ⟨hz, ?_⟩
  intro Emb dbPath meta folders cfg now pid h
  unfold shouldUpdatePerson
  rw [hz Emb dbPath meta folders pid]
  simpa using h

/-- Witness for C10's second conjunct: one loaded identity, clock at 1000. -/
theorem C10_restart_resets_throttle_witness :
    shouldUpdatePerson defaultConfig 1000
      (loadExistingDatabase ℚ "./database" []
        [{ name := "Person_1", hasImage := true, loadOk := true,
           encodings := [0] }]) "Person_1" = true :=
  C10_restart_resets_throttle.2 ℚ "./database" []
    [{ name := "Person_1", hasImage := true, loadOk := true, encodings := [0] }]
    defaultConfig 1000 "Person_1" (by decide)

/-- Catalog for the C1 counterexample: folder `Person_1` loads normally,
folder `Person_3` is present but its reference image is unreadable (the load
raises), so the id 3 exists in the catalog yet is not loaded. -/
def c1Disk : List (DiskFolder ℚ) :=
  [{ name := "Person_1", hasImage := true, loadOk := true, encodings := [0] },
   { name := "Person_3", hasImage := true, loadOk := false, encodings := [] }]

/-- C1 fails on the code: with catalog folders `Person_1` (readable) and
`Person_3` (unreadable reference image), the maximum id observed in the
catalog at startup is 3, yet `person_count` is rebuilt as 1 and the next two
registrations are assigned `Person_2` and then `Person_3` — the id 3, already
present in the catalog, is allocated a second time, so ids are reused and the
next id is not `max(ids observed in the catalog) + 1` (which would be 4). -/
theorem C1_counterexample :
    c1Disk.map (fun f => f.name) = ["Person_1", "Person_3"] ∧
    (loadExistingDatabase ℚ "./database" [] c1Disk).personCount = 1 ∧
    (registerSeq 1000 (loadExistingDatabase ℚ "./database" [] c1Disk)
        [5, 9]).1 = ["Person_2", "Person_3"] :=
  ⟨by decide, by decide, by decide⟩

/-- C1 (amended): the id counter recomputed at startup is the maximum over the
ids of the identities that were successfully loaded — a folder skipped for a
missing image, an unreadable reference image, no extractable encoding, or an
unparsable numeric suffix contributes nothing — and each later registration
allocates the successor of the running counter, so within a run the assigned
ids are `max(loaded ids) + 1, max(loaded ids) + 2, ...`, strictly increasing;
an id present in the catalog only in a skipped folder can be allocated
again. -/
theorem C1_amended_next_id :
    (∀ (Emb : Type) (dbPath : String) (meta : List (String × MetaEntry))
        (folders : List (DiskFolder Emb)),
        (loadExistingDatabase Emb dbPath meta folders).personCount =
          folders.foldl
            (fun a f =>
              match loadedId f with
              | some n => max a n
              | none => a) 0) ∧
    (∀ (Emb : Type) (now : ℚ) (s : St Emb) (es : List Emb),
        (registerSeq now s es).1 =
          (List.range es.length).map
            (fun i => personName (s.personCount + 1 + i)) ∧
        (registerSeq now s es).2.personCount = s.personCount + es.length) := by
  constructor
  · intro Emb dbPath meta folders
    unfold loadExistingDatabase
    rw [foldl_load_personCount]
    rfl
  · intro Emb now s es
    exact registerSeq_ids now es s

/-- First cycle of the C3 counterexample run: one detection whose save raises
at `cv2.imwrite`. -/
def c3Frame1 : List (Obs ℚ) :=
  [{ emb := 0, now := 0, ts := "20260101_120000", out := SaveOutcome.imwriteErr }]

/-- Second cycle of the C3 counterexample run: a distinct new face that would
be registered as `Person_2` if the loop reached it. -/
def c3Frame2 : List (Obs ℚ) :=
  [{ emb := 10, now := 1, ts := "20260101_120001", out := SaveOutcome.ok }]

/-- The two cycles of the C3 counterexample run. -/
def c3Frames : List (List (Obs ℚ)) := [c3Frame1, c3Frame2]

/-- C3 fails on the code: the only exception handler sits outside the `while`
loop (lines 317-318), so the I/O failure raised while persisting `Person_1`'s
image terminates the whole tracking loop — the second cycle is never processed
(its distinct face, which would have been registered as `Person_2`, is absent
from the final gallery) and no image write is recorded; the loop does not
continue with the next detection or cycle as the claim states. -/
theorem C3_counterexample :
    (startTracking defaultConfig qdist c3Frames
        (initState ℚ "./database")).knownNames = ["Person_1"] ∧
    (startTracking defaultConfig qdist c3Frames
        (initState ℚ "./database")).savedFiles = [] :=
  ⟨by decide, by decide⟩

/-- C3 (amended): an I/O failure raised while persisting an image or ledger
propagates to the loop-level handler, which reports it and runs the guaranteed
teardown, so the process does not crash — but the tracking loop terminates
instead of continuing: the remainder of the failing cycle and all later cycles
are dropped; and a write that raises at `cv2.imwrite` leaves no recorded image
write for that identity. -/
theorem C3_amended_failure_terminates_loop :
    (∀ (Emb : Type) (cfg : Config) (dist : Emb → Emb → ℚ)
        (frame : List (Obs Emb)) (rest : List (List (Obs Emb)))
        (s sErr : St Emb),
        processFrame cfg dist frame s = Except.error sErr →
        startTracking cfg dist (frame :: rest) s = cleanup sErr) ∧
    (∀ (Emb : Type) (now : ℚ) (ts : String) (s : St Emb) (pid : String)
        (sErr : St Emb),
        savePersonImage now ts SaveOutcome.imwriteErr s pid =
          Except.error sErr →
        sErr.savedFiles = s.savedFiles) := by
  constructor
  · intro Emb cfg dist frame rest s sErr h
    unfold startTracking runFrames
    rw [h]
  · intro Emb now ts s pid sErr h
    simp only [savePersonImage] at h
    split at h <;> injection h with h2 <;> subst h2 <;>
      simp [createPersonFolder, saveMetadata]

/-- Error state reached in the C3 witness run: `Person_1` registered, its
folder created, then the image write raised. -/
def c3ErrSt : St ℚ :=
  postState (processDetection defaultConfig qdist 0 "20260101_120000"
    SaveOutcome.imwriteErr (initState ℚ "./database") 0)

/-- Error state of a bare failing save in the C3 witness. -/
def c3SaveErrSt : St ℚ :=
  postState (savePersonImage 0 "20260101_120000" SaveOutcome.imwriteErr
    (registerNewPerson 0 (initState ℚ "./database") 0).2 "Person_1")

/-- Witness for C3 (amended) at the concrete failing run. -/
theorem C3_amended_witness :
    startTracking defaultConfig qdist (c3Frame1 :: [c3Frame2])
        (initState ℚ "./database") = cleanup c3ErrSt ∧
    c3SaveErrSt.savedFiles =
      (registerNewPerson 0 (initState ℚ "./database") 0).2.savedFiles :=
  ⟨C3_amended_failure_terminates_loop.1 ℚ defaultConfig qdist c3Frame1
      [c3Frame2] (initState ℚ "./database") c3ErrSt rfl,
    C3_amended_failure_terminates_loop.2 ℚ 0 "20260101_120000"
      (registerNewPerson 0 (initState ℚ "./database") 0).2 "Person_1"
      c3SaveErrSt rfl⟩

/-- State after the first same-second save of the C4 scenario. -/
def c4St1 : St ℚ :=
  postState (savePersonImage 100 "20260101_120000" SaveOutcome.ok
    (initState ℚ "./database") "Person_1")

/-- C4 states the intended contract, which the code violates (the design notes
flag the original behavior as likely unintended): two image persistences for
the same identity within the same second-resolution timestamp generate the
identical file path, so the second `cv2.imwrite` silently overwrites the
first image instead of producing a distinct filename. -/
theorem C4_same_second_overwrite :
    okPath (savePersonImage 100 "20260101_120000" SaveOutcome.ok
        (initState ℚ "./database") "Person_1") =
      some "./database/Person_1/Person_1_20260101_120000.jpg" ∧
    okPath (savePersonImage 100 "20260101_120000" SaveOutcome.ok c4St1
        "Person_1") =
      some "./database/Person_1/Person_1_20260101_120000.jpg" ∧
    (postState (savePersonImage 100 "20260101_120000" SaveOutcome.ok c4St1
        "Person_1")).savedFiles =
      ["./database/Person_1/Person_1_20260101_120000.jpg",
       "./database/Person_1/Person_1_20260101_120000.jpg"] :=
  ⟨by decide, by decide, by decide⟩

end PersonTracker
